import Mathlib

/-!
Shallow embedding of the client-side dual-transport messaging logic of
`frontend/app.js`: settings persistence (`saveSettings` / `loadSettings`),
the message router (`sendMessage`, `sendViaWebSocket`, `sendViaRestAPI`),
the WebSocket lifecycle (`connectWebSocket`, `disconnectWebSocket`, the
`onmessage` / `onclose` handlers and the 5000 ms reconnection timer), the
conversation log (`addMessage`, `resetConversation`) and the typing flag
(`setTyping`).  DOM rendering (element creation, scrolling, the welcome
section, character counters) is out of scope and is not modelled; network
interactions are modelled by explicit effect lists and by parameters that
stand for the environment's response.
-/

namespace Chatbot

/-- Message role as stored by `addMessage`: the source passes the strings
`user` and `bot` (the spec's `assistant` role corresponds to `bot`). -/
inductive Role
  | user
  | bot
  deriving DecidableEq

/-- A conversation entry, as built in `addMessage`: role, content and the
ISO timestamp string taken at append time. -/
structure Message where
  role : Role
  content : String
  timestamp : String
  deriving DecidableEq

/-- `state.settings`: temperature (a float, modelled exactly as a rational),
max length, and the transport preference flag `useWebSocket` (the spec's
`transportPreference`: `true` is `persistent`, `false` is `requestOnly`). -/
structure Settings where
  temperature : Rat
  maxLength : Nat
  useWebSocket : Bool
  deriving DecidableEq

/-- `CONFIG.defaultTemperature` (0.7). -/
def CONFIG_defaultTemperature : Rat := 7 / 10

/-- `CONFIG.defaultMaxLength`. -/
def CONFIG_defaultMaxLength : Nat := 1000

/-- `CONFIG.useWebSocket`. -/
def CONFIG_useWebSocket : Bool := true

/-- The initial `state.settings` value built from `CONFIG`. -/
def defaultSettings : Settings :=
  { temperature := CONFIG_defaultTemperature
    maxLength := CONFIG_defaultMaxLength
    useWebSocket := CONFIG_useWebSocket }

/-- The persisted `chatbot-settings` JSON object.  Each field is optional
because a JSON object read back from storage may lack keys; `saveSettings`
always writes all three. -/
structure SavedSettings where
  temperature : Option Rat
  maxLength : Option Nat
  useWebSocket : Option Bool
  deriving DecidableEq

/-- `saveSettings`: `localStorage.setItem` of `JSON.stringify(state.settings)`,
i.e. the persisted object carries every field of the in-memory value. -/
def saveSettings (s : Settings) : SavedSettings :=
  { temperature := some s.temperature
    maxLength := some s.maxLength
    useWebSocket := some s.useWebSocket }

/-- `loadSettings`: if storage holds a saved object, spread-merge it onto the
current in-memory settings (`\x7b...state.settings, ...JSON.parse(saved)\x7d`);
absent keys keep the current value, present keys override it.  With nothing
saved, the in-memory settings are kept unchanged. -/
def loadSettings (cur : Settings) (saved : Option SavedSettings) : Settings :=
  match saved with
  | none => cur
  | some sv =>
      { temperature := sv.temperature.getD cur.temperature
        maxLength := sv.maxLength.getD cur.maxLength
        useWebSocket := sv.useWebSocket.getD cur.useWebSocket }

/-- The browser WebSocket `readyState` values. -/
inductive WsReadyState
  | CONNECTING
  | OPEN
  | CLOSING
  | CLOSED
  deriving DecidableEq

/-- A WebSocket handle: an identity (so that distinct `new WebSocket(...)`
calls are distinguishable) and its `readyState`. -/
structure WsHandle where
  id : Nat
  readyState : WsReadyState
  deriving DecidableEq

/-- The mutable application `state` relevant to the messaging core:
`messages`, `isTyping`, `websocket`, `settings`.  (`theme` is view-layer.) -/
structure AppState where
  messages : List Message
  isTyping : Bool
  websocket : Option WsHandle
  settings : Settings
  deriving DecidableEq

/-- The outbound WebSocket frame of `sendViaWebSocket`:
`JSON.stringify(\x7bmessage, temperature, maxLength\x7d)`. -/
structure WsOutFrame where
  message : String
  temperature : Rat
  maxLength : Nat
  deriving DecidableEq

/-- The body of the `POST /api/chat` request of `sendViaRestAPI`:
`\x7bmessage, temperature, max_length\x7d`. -/
structure ChatRequestBody where
  message : String
  temperature : Rat
  max_length : Nat
  deriving DecidableEq

/-- Observable side effects of the messaging core: a WebSocket send, a REST
POST to `/api/chat`, creation of a new WebSocket, a POST to `/api/reset`,
an error notice (`showError`), a success notice (`showSuccess`), and a
connection-status update. -/
inductive Effect
  | wsSend (frame : WsOutFrame)
  | restPost (body : ChatRequestBody)
  | wsCreate (id : Nat)
  | restReset
  | errorNotice (text : String)
  | successNotice (text : String)
  | statusUpdate (connected : Bool)
  deriving DecidableEq

/-- Outcome of a `fetch` round trip as observed by the code: an ok response
with a parsed `response` string, a non-ok HTTP status (the code throws), or
a network-level failure (the `fetch` promise rejects). -/
inductive RestResult
  | ok (response : String)
  | httpError (status : Nat)
  | networkError
  deriving DecidableEq

/-- `addMessage(type, content)`: builds a message with the current timestamp
and pushes it at the end of `state.messages`.  (The DOM append and scroll
are view-layer.) -/
def addMessage (st : AppState) (role : Role) (content : String) (now : String) : AppState :=
  { st with messages := st.messages ++ [{ role := role, content := content, timestamp := now }] }

/-- `setTyping(isTyping)`: stores the flag (the indicator element and the
disabled send button are view-layer). -/
def setTyping (st : AppState) (b : Bool) : AppState :=
  { st with isTyping := b }

/-- The guard `state.websocket?.readyState === WebSocket.OPEN`. -/
def wsIsOpen (st : AppState) : Bool :=
  match st.websocket with
  | some ws => ws.readyState == WsReadyState.OPEN
  | none => false

/-- The `showError` text used in the catch branch of `sendViaWebSocket`. -/
def wsSendErrorMsg : String := "Failed to send message via WebSocket. Trying REST API..."

/-- The `showError` text used in the catch branch of `sendViaRestAPI`. -/
def apiErrorMsg : String := "Failed to get response from the chatbot. Please try again."

/-- The `showError` text used in the catch branch of `resetConversation`. -/
def resetErrorMsg : String := "Failed to reset conversation"

/-- The `showSuccess` text of `resetConversation`. -/
def resetSuccessMsg : String := "Conversation reset successfully!"

/-- `sendViaRestAPI(message)`: sets the typing flag, POSTs
`\x7bmessage, temperature, max_length\x7d` to `/api/chat`; on an ok response
appends one bot message; on a non-ok status or a network error shows one
error notice and appends nothing; the `finally` clause always clears the
typing flag. -/
def sendViaRestAPI (st : AppState) (message : String) (resp : RestResult) (now : String) :
    AppState × List Effect :=
  let st1 := setTyping st true
  let post := Effect.restPost
    { message := message
      temperature := st1.settings.temperature
      max_length := st1.settings.maxLength }
  match resp with
  | RestResult.ok r =>
      (setTyping (addMessage st1 Role.bot r now) false, [post])
  | RestResult.httpError _ =>
      (setTyping st1 false, [post, Effect.errorNotice apiErrorMsg])
  | RestResult.networkError =>
      (setTyping st1 false, [post, Effect.errorNotice apiErrorMsg])

/-- `sendViaWebSocket(message)`: sends the JSON frame over the socket; if the
send throws (`sendThrows`), shows one error notice and falls back to exactly
one `sendViaRestAPI` call. -/
def sendViaWebSocket (st : AppState) (message : String) (sendThrows : Bool)
    (resp : RestResult) (now : String) : AppState × List Effect :=
  if sendThrows then
    let r := sendViaRestAPI st message resp now
    (r.1, Effect.errorNotice wsSendErrorMsg :: r.2)
  else
    (st, [Effect.wsSend
      { message := message
        temperature := st.settings.temperature
        maxLength := st.settings.maxLength }])

/-- The `.trim()` string builtin used on the input box value: drops leading
and trailing whitespace. -/
def jsTrim (s : String) : String :=
  String.mk (((s.data.dropWhile Char.isWhitespace).reverse.dropWhile Char.isWhitespace).reverse)

/-- `sendMessage()`: trims the input; returns doing nothing when the trimmed
text is empty or `state.isTyping` is set; otherwise appends the user message
and routes it: WebSocket when `settings.useWebSocket` holds and the socket's
`readyState` is `OPEN`, REST otherwise.  (Input clearing and the welcome
section are view-layer.) -/
def sendMessage (st : AppState) (input : String) (sendThrows : Bool)
    (resp : RestResult) (now : String) : AppState × List Effect :=
  let message := jsTrim input
  if message == "" || st.isTyping then (st, [])
  else
    let st1 := addMessage st Role.user message now
    if st1.settings.useWebSocket && wsIsOpen st1 then
      sendViaWebSocket st1 message sendThrows resp now
    else
      sendViaRestAPI st1 message resp now

/-- A parsed inbound WebSocket JSON object.  Each field is optional because
the incoming JSON may lack any of them (an absent field reads as
`undefined` in the source). -/
structure WsInbound where
  type : Option String
  isTyping : Option Bool
  response : Option String
  error : Option String
  deriving DecidableEq

/-- Rendering of a possibly-`undefined` string field, as the DOM would show
it (`undefined` stringifies to "undefined"). -/
def jsDisplay (v : Option String) : String := v.getD "undefined"

/-- The `onmessage` handler of `connectWebSocket`: `JSON.parse` the raw
payload (`none` models a parse failure, whose exception escapes the handler
so nothing further runs), then dispatch on `data.type`: `typing` stores the
flag, `message` clears typing and appends one bot message, `error` shows the
error text and clears typing; any other shape falls through every branch and
nothing happens. -/
def onMessageEvent (st : AppState) (raw : Option WsInbound) (now : String) :
    AppState × List Effect :=
  match raw with
  | none => (st, [])
  | some d =>
      if d.type == some "typing" then
        (setTyping st (d.isTyping.getD false), [])
      else if d.type == some "message" then
        (addMessage (setTyping st false) Role.bot (jsDisplay d.response) now, [])
      else if d.type == some "error" then
        (setTyping st false, [Effect.errorNotice (jsDisplay d.error)])
      else
        (st, [])

/-- Whether an inbound payload decodes to one of the recognized
`TransportEvent` shapes dispatched by the `onmessage` handler. -/
def recognizedInbound (raw : Option WsInbound) : Bool :=
  match raw with
  | none => false
  | some d =>
      d.type == some "typing" || d.type == some "message" || d.type == some "error"

/-- `connectWebSocket()`: returns immediately when the current socket's
`readyState` is `OPEN` (and only then); otherwise constructs a fresh
`WebSocket`, which starts in `CONNECTING`, and stores it in
`state.websocket`; if the constructor throws, the status is updated and the
state keeps the old handle. -/
def connectWebSocket (st : AppState) (newId : Nat) (ctorThrows : Bool) :
    AppState × List Effect :=
  if wsIsOpen st then (st, [])
  else if ctorThrows then (st, [Effect.statusUpdate false])
  else ({ st with websocket := some { id := newId, readyState := WsReadyState.CONNECTING } },
        [Effect.wsCreate newId])

/-- `disconnectWebSocket()`: if a socket handle exists, close it, null the
field and update the status; no retry timer is touched. -/
def disconnectWebSocket (st : AppState) : AppState × List Effect :=
  match st.websocket with
  | some _ => ({ st with websocket := none }, [Effect.statusUpdate false])
  | none => (st, [])

/-- `resetConversation()`: when the confirm dialog is accepted, POST to
`/api/reset`; on an ok response clear `state.messages` entirely and show a
success notice; on a non-ok response nothing further happens; on a network
error show one error notice. -/
def resetConversation (st : AppState) (confirmed : Bool) (resp : RestResult) :
    AppState × List Effect :=
  if !confirmed then (st, [])
  else
    match resp with
    | RestResult.ok _ =>
        ({ st with messages := [] }, [Effect.restReset, Effect.successNotice resetSuccessMsg])
    | RestResult.httpError _ =>
        (st, [Effect.restReset])
    | RestResult.networkError =>
        (st, [Effect.restReset, Effect.errorNotice resetErrorMsg])

/-- The fixed reconnection delay of the `onclose` handler (5000 ms). -/
def reconnectDelayMs : Nat := 5000

/-- System state for the temporal reconnection behaviour: the application
state plus the queue of pending `setTimeout` reconnection timers (each entry
is its delay in milliseconds).  The source never cancels these timers. -/
structure Sys where
  app : AppState
  retries : List Nat
  deriving DecidableEq

/-- The `onclose` handler: marks the handle closed, updates the status and,
when `state.settings.useWebSocket` still holds at that moment, schedules one
`connectWebSocket` retry after `reconnectDelayMs`. -/
def onWsClose (s : Sys) : Sys :=
  let app1 :=
    match s.app.websocket with
    | some ws => { s.app with websocket := some { ws with readyState := WsReadyState.CLOSED } }
    | none => s.app
  if app1.settings.useWebSocket then
    { app := app1, retries := s.retries ++ [reconnectDelayMs] }
  else
    { app := app1, retries := s.retries }

/-- Scheduler events: the socket's close event fires; a pending retry timer
fires (running `connectWebSocket` with a fresh handle id); the user toggles
the `useWebSocket` setting, which saves it and then connects or disconnects
(the only caller of `disconnectWebSocket` in the source). -/
inductive SysEvent
  | close
  | retryTimer (newId : Nat)
  | toggleTransport (enabled : Bool) (newId : Nat)
  deriving DecidableEq

/-- One scheduler step.  A `retryTimer` event only fires when a timer is
pending; firing it runs `connectWebSocket` unconditionally — the source has
no `clearTimeout` and the callback does not re-check the setting. -/
def sysStep (s : Sys) (e : SysEvent) : Sys :=
  match e with
  | SysEvent.close => onWsClose s
  | SysEvent.retryTimer newId =>
      match s.retries with
      | [] => s
      | _ :: rest => { app := (connectWebSocket s.app newId false).1, retries := rest }
  | SysEvent.toggleTransport true newId =>
      let app1 := { s.app with settings := { s.app.settings with useWebSocket := true } }
      { app := (connectWebSocket app1 newId false).1, retries := s.retries }
  | SysEvent.toggleTransport false _ =>
      let app1 := { s.app with settings := { s.app.settings with useWebSocket := false } }
      { app := (disconnectWebSocket app1).1, retries := s.retries }

/-- Run a sequence of scheduler events. -/
def sysRun (s : Sys) (es : List SysEvent) : Sys := es.foldl sysStep s

/-- Number of `POST /api/chat` attempts (RequestChannel invocations) in an
effect list. -/
def restCalls (effs : List Effect) : Nat :=
  (effs.filter fun e => match e with | Effect.restPost _ => true | _ => false).length

/-- Number of WebSocket sends in an effect list. -/
def wsSends (effs : List Effect) : Nat :=
  (effs.filter fun e => match e with | Effect.wsSend _ => true | _ => false).length

/-- Number of user-visible error notices in an effect list. -/
def errorNotices (effs : List Effect) : Nat :=
  (effs.filter fun e => match e with | Effect.errorNotice _ => true | _ => false).length

/-! Concrete states used by witnesses and counterexamples. -/

/-- A state with an open socket and the default settings. -/
def exampleConnectedState : AppState :=
  { messages := []
    isTyping := false
    websocket := some { id := 0, readyState := WsReadyState.OPEN }
    settings := defaultSettings }

/-- A state whose typing flag is set (an exchange is busy). -/
def busyState : AppState :=
  { messages := []
    isTyping := true
    websocket := none
    settings := defaultSettings }

/-! Theorems. -/

/-- C2: for every valid Settings value s (temperature in the range 0 to 2,
positive maxLength), saving s and then loading yields exactly s, whatever the
in-memory settings were at load time: `load(save(s)) = s`. -/
theorem settings_roundtrip (cur s : Settings)
    (htlo : 0 ≤ s.temperature) (hthi : s.temperature ≤ 2) (hlen : 0 < s.maxLength) :
    loadSettings cur (some (saveSettings s)) = s := by
  cases s
  rfl

/-- Witness for `settings_roundtrip` at a concrete valid settings value. -/
theorem settings_roundtrip_witness :
    loadSettings defaultSettings
        (some (saveSettings { temperature := 7 / 10, maxLength := 1000, useWebSocket := true }))
      = { temperature := 7 / 10, maxLength := 1000, useWebSocket := true } :=
  settings_roundtrip defaultSettings
    { temperature := 7 / 10, maxLength := 1000, useWebSocket := true }
    (show (0 : Rat) ≤ 7 / 10 by norm_num) (show (7 : Rat) / 10 ≤ 2 by norm_num)
    (by decide)

/-- C4: a send call issued while the busy/typing flag is set is rejected:
the state (conversation log included) is unchanged, no effect happens on
either transport, and nothing is queued. -/
theorem busy_send_rejected (st : AppState) (input : String) (sendThrows : Bool)
    (resp : RestResult) (now : String) (h : st.isTyping = true) :
    sendMessage st input sendThrows resp now = (st, []) := by
  unfold sendMessage
  simp [h]

/-- Witness for `busy_send_rejected` on a concrete busy state. -/
theorem busy_send_rejected_witness :
    sendMessage busyState "hi" false (RestResult.ok "x") "t" = (busyState, []) :=
  busy_send_rejected busyState "hi" false (RestResult.ok "x") "t" (by decide)

/-- C10: for an input that is empty or all whitespace (its trim is empty),
a send call is a complete no-op: nothing is appended, no transport is used,
and the busy/typing flag is unchanged. -/
theorem blank_input_noop (st : AppState) (input : String) (sendThrows : Bool)
    (resp : RestResult) (now : String) (h : jsTrim input = "") :
    sendMessage st input sendThrows resp now = (st, []) := by
  unfold sendMessage
  simp [h]

/-- Witness for `blank_input_noop` on a whitespace-only input. -/
theorem blank_input_noop_witness :
    sendMessage exampleConnectedState "   " false (RestResult.ok "x") "t"
      = (exampleConnectedState, []) :=
  blank_input_noop exampleConnectedState "   " false (RestResult.ok "x") "t" (by decide)

/-- An inbound payload that parses as JSON but is not a recognized
TransportEvent shape. -/
def unrecognizedPayload : WsInbound :=
  { type := some "unknown", isTyping := none, response := none, error := none }

/-- C5 counterexample: for an inbound payload that decodes to no recognized
TransportEvent shape, the conversation log is indeed unchanged, but zero
error notices are emitted — not exactly one as claimed; the payload is
dropped silently. -/
theorem malformed_inbound_cex :
    (onMessageEvent exampleConnectedState (some unrecognizedPayload) "t").1.messages
        = exampleConnectedState.messages ∧
    errorNotices (onMessageEvent exampleConnectedState (some unrecognizedPayload) "t").2 = 0 ∧
    errorNotices (onMessageEvent exampleConnectedState (some unrecognizedPayload) "t").2 ≠ 1 := by
  refine ⟨rfl, rfl, ?_⟩
  decide

/-- C5 amended: an inbound raw payload that does not decode to a recognized
TransportEvent shape (unparsable, or its type tag is none of typing, message
and error) leaves the whole state unchanged — the store size in particular —
and emits no effect at all: no error notice is shown. -/
theorem malformed_inbound_silent (st : AppState) (raw : Option WsInbound) (now : String)
    (h : recognizedInbound raw = false) :
    onMessageEvent st raw now = (st, []) := by
  cases raw with
  | none => rfl
  | some d =>
      unfold recognizedInbound at h
      simp only [Bool.or_eq_false_iff] at h
      unfold onMessageEvent
      simp only [h.1.1, h.1.2, h.2, if_false, Bool.false_eq_true, if_neg, ite_false]

/-- Witness for `malformed_inbound_silent` on a concrete unrecognized
payload. -/
theorem malformed_inbound_silent_witness :
    onMessageEvent exampleConnectedState (some unrecognizedPayload) "t"
      = (exampleConnectedState, []) :=
  malformed_inbound_silent exampleConnectedState (some unrecognizedPayload) "t" (by decide)

/-- A state whose socket handle is still in the CONNECTING readyState. -/
def connectingState : AppState :=
  { messages := []
    isTyping := false
    websocket := some { id := 0, readyState := WsReadyState.CONNECTING }
    settings := defaultSettings }

/-- C6 counterexample: calling connect while the channel is in the
connecting state is not a no-op — the guard only checks OPEN — so a second,
fresh channel handle replaces the first one. -/
theorem connect_while_connecting_cex :
    connectingState.websocket = some { id := 0, readyState := WsReadyState.CONNECTING } ∧
    (connectWebSocket connectingState 1 false).1.websocket
      = some { id := 1, readyState := WsReadyState.CONNECTING } := by
  exact ⟨rfl, rfl⟩

/-- C6 amended: connect is a no-op (state kept, no effect, hence no second
handle) only when the channel is already in the connected (OPEN) state;
while the channel is merely connecting, the guard does not fire and a fresh
handle is created in its place. -/
theorem connect_noop_when_open (st : AppState) (newId : Nat) (ctorThrows : Bool)
    (h : wsIsOpen st = true) :
    connectWebSocket st newId ctorThrows = (st, []) := by
  unfold connectWebSocket
  simp [h]

/-- Witness for `connect_noop_when_open` on a concrete open-socket state. -/
theorem connect_noop_when_open_witness :
    connectWebSocket exampleConnectedState 1 false = (exampleConnectedState, []) :=
  connect_noop_when_open exampleConnectedState 1 false (by decide)

/-- A state holding one already-appended message. -/
def oneMessageState : AppState :=
  { messages := [{ role := Role.user, content := "hi", timestamp := "t" }]
    isTyping := false
    websocket := none
    settings := defaultSettings }

/-- C7 counterexample: append is not the only mutator of the conversation
store — a confirmed reset whose round trip succeeds removes every previously
appended entry. -/
theorem reset_clears_store_cex :
    oneMessageState.messages ≠ [] ∧
    (resetConversation oneMessageState true (RestResult.ok "done")).1.messages = [] := by
  exact ⟨by decide, rfl⟩

/-- C7 amended: within the messaging operations, appends only ever add one
entry at the end (existing entries and their order are untouched), and two
appends of identical content yield two distinct entries (the log grows by
two); however, a confirmed reset whose round trip succeeds clears the whole
log, so append is not the only mutator. -/
theorem append_order_spec (st : AppState) (role : Role) (content now : String) :
    (addMessage st role content now).messages
      = st.messages ++ [{ role := role, content := content, timestamp := now }] ∧
    (addMessage (addMessage st role content now) role content now).messages.length
      = st.messages.length + 2 ∧
    (resetConversation st true (RestResult.ok "done")).1.messages = [] := by
  refine ⟨rfl, ?_, rfl⟩
  simp [addMessage]

/-- The connected system state at the start of the C3 counterexample
trace. -/
def c3Start : Sys :=
  { app := exampleConnectedState
    retries := [] }

/-- C3 counterexample: the channel closes while the preference is
persistent, so a retry is scheduled; the user then turns the persistent
preference off, which calls disconnect; yet the pending retry timer is not
cancelled — when it fires it opens a fresh connecting channel handle even
though the preference is requestOnly and disconnect was called. -/
theorem disconnect_pending_retry_cex :
    (sysRun c3Start [SysEvent.close, SysEvent.toggleTransport false 0]).app.settings.useWebSocket
        = false ∧
    (sysRun c3Start [SysEvent.close, SysEvent.toggleTransport false 0]).app.websocket = none ∧
    (sysRun c3Start [SysEvent.close, SysEvent.toggleTransport false 0]).retries
        = [reconnectDelayMs] ∧
    (sysRun c3Start
        [SysEvent.close, SysEvent.toggleTransport false 0, SysEvent.retryTimer 1]).app.websocket
      = some { id := 1, readyState := WsReadyState.CONNECTING } := by
  exact ⟨rfl, rfl, rfl, rfl⟩

/-- C3 amended: when the channel closes while the preference is persistent,
one reconnection attempt is scheduled at the fixed configured delay (5000
ms), and when the preference is requestOnly at close time no retry is
scheduled by that close; but an explicit disconnect does not cancel an
already pending retry timer (the retries queue is untouched), and a pending
retry that fires with no live handle opens a fresh connecting channel
regardless of the preference. -/
theorem reconnect_schedule_spec (s : Sys) (a : AppState) (d i j : Nat) (rest : List Nat) :
    (sysStep s SysEvent.close).retries
        = s.retries ++ (if s.app.settings.useWebSocket then [reconnectDelayMs] else []) ∧
    (sysStep s (SysEvent.toggleTransport false j)).retries = s.retries ∧
    (sysStep { app := { a with websocket := none }, retries := d :: rest }
        (SysEvent.retryTimer i)).app.websocket
      = some { id := i, readyState := WsReadyState.CONNECTING } := by
  refine ⟨?_, ?_, ?_⟩
  · unfold sysStep onWsClose
    cases hws : s.app.websocket with
    | none => cases h : s.app.settings.useWebSocket <;> simp [h]
    | some w => cases h : s.app.settings.useWebSocket <;> simp [h]
  · rfl
  · rfl

/-- Routing lemma: when the trimmed input is nonempty and no exchange is
busy, a send appends the user message and routes it by the preference flag
and the socket state. -/
theorem sendMessage_routes (st : AppState) (input : String) (sendThrows : Bool)
    (resp : RestResult) (now : String)
    (hmsg : jsTrim input ≠ "") (hbusy : st.isTyping = false) :
    sendMessage st input sendThrows resp now
      = if st.settings.useWebSocket && wsIsOpen st then
          sendViaWebSocket (addMessage st Role.user (jsTrim input) now)
            (jsTrim input) sendThrows resp now
        else
          sendViaRestAPI (addMessage st Role.user (jsTrim input) now) (jsTrim input) resp now := by
  unfold sendMessage
  have h1 : (jsTrim input == "" || st.isTyping) = false := by
    simp [hbusy, hmsg]
  simp only [h1, Bool.false_eq_true, if_false]
  rfl

/-- The REST path always produces exactly one POST to `/api/chat` and no
WebSocket send, whatever the round trip's outcome. -/
theorem sendViaRestAPI_calls (st : AppState) (m : String) (resp : RestResult) (now : String) :
    restCalls (sendViaRestAPI st m resp now).2 = 1 ∧
    wsSends (sendViaRestAPI st m resp now).2 = 0 := by
  cases resp <;> simp [sendViaRestAPI, restCalls, wsSends, List.filter]

/-- The WebSocket path: a successful socket send produces one frame and no
REST call; a throwing socket send produces exactly one REST fallback and no
frame. -/
theorem sendViaWebSocket_calls (st : AppState) (m : String) (resp : RestResult) (now : String) :
    (wsSends (sendViaWebSocket st m false resp now).2 = 1 ∧
     restCalls (sendViaWebSocket st m false resp now).2 = 0) ∧
    (restCalls (sendViaWebSocket st m true resp now).2 = 1 ∧
     wsSends (sendViaWebSocket st m true resp now).2 = 0) := by
  refine ⟨⟨?_, ?_⟩, ?_, ?_⟩ <;>
    cases resp <;>
      simp [sendViaWebSocket, sendViaRestAPI, restCalls, wsSends, List.filter]

/-- C1: an accepted send (nonempty trimmed input, not busy) with persistent
preference and a connected socket goes out over the socket with no
RequestChannel call, falling back to exactly one RequestChannel call only
when the socket send itself throws; in every other configuration exactly one
RequestChannel call is made and no socket frame is sent; in all cases at
most one fallback happens and at least one transport is used (the message is
never silently dropped). -/
theorem router_single_fallback (st : AppState) (input : String) (sendThrows : Bool)
    (resp : RestResult) (now : String)
    (hmsg : jsTrim input ≠ "") (hbusy : st.isTyping = false) :
    ((st.settings.useWebSocket && wsIsOpen st) = true →
        (sendThrows = false →
            wsSends (sendMessage st input sendThrows resp now).2 = 1 ∧
            restCalls (sendMessage st input sendThrows resp now).2 = 0) ∧
        (sendThrows = true →
            restCalls (sendMessage st input sendThrows resp now).2 = 1 ∧
            wsSends (sendMessage st input sendThrows resp now).2 = 0)) ∧
    ((st.settings.useWebSocket && wsIsOpen st) = false →
        restCalls (sendMessage st input sendThrows resp now).2 = 1 ∧
        wsSends (sendMessage st input sendThrows resp now).2 = 0) ∧
    restCalls (sendMessage st input sendThrows resp now).2 ≤ 1 ∧
    1 ≤ restCalls (sendMessage st input sendThrows resp now).2
        + wsSends (sendMessage st input sendThrows resp now).2 := by
  rw [sendMessage_routes st input sendThrows resp now hmsg hbusy]
  cases hc : st.settings.useWebSocket && wsIsOpen st with
  | true =>
      rw [if_pos rfl]
      cases sendThrows with
      | false =>
          obtain ⟨⟨h1, h2⟩, -⟩ := sendViaWebSocket_calls
            (addMessage st Role.user (jsTrim input) now) (jsTrim input) resp now
          refine ⟨fun _ => ⟨fun _ => ⟨h1, h2⟩, fun hf => absurd hf (by decide)⟩,
                  fun hf => absurd hf (by decide), ?_, ?_⟩
          · simp [h2]
          · simp [h1, h2]
      | true =>
          obtain ⟨-, h1, h2⟩ := sendViaWebSocket_calls
            (addMessage st Role.user (jsTrim input) now) (jsTrim input) resp now
          refine ⟨fun _ => ⟨fun hf => absurd hf (by decide), fun _ => ⟨h1, h2⟩⟩,
                  fun hf => absurd hf (by decide), ?_, ?_⟩
          · simp [h1]
          · simp [h1, h2]
  | false =>
      rw [if_neg (by decide : ¬ false = true)]
      obtain ⟨h1, h2⟩ := sendViaRestAPI_calls
        (addMessage st Role.user (jsTrim input) now) (jsTrim input) resp now
      refine ⟨fun hf => absurd hf (by decide), fun _ => ⟨h1, h2⟩, ?_, ?_⟩
      · simp [h1]
      · simp [h1, h2]

/-- Witness for `router_single_fallback` on a connected state with a
successful socket send. -/
theorem router_single_fallback_witness :
    ((exampleConnectedState.settings.useWebSocket && wsIsOpen exampleConnectedState) = true →
        (false = false →
            wsSends (sendMessage exampleConnectedState "hi" false (RestResult.ok "x") "t").2 = 1 ∧
            restCalls (sendMessage exampleConnectedState "hi" false (RestResult.ok "x") "t").2
              = 0) ∧
        (false = true →
            restCalls (sendMessage exampleConnectedState "hi" false (RestResult.ok "x") "t").2
                = 1 ∧
            wsSends (sendMessage exampleConnectedState "hi" false (RestResult.ok "x") "t").2
              = 0)) ∧
    ((exampleConnectedState.settings.useWebSocket && wsIsOpen exampleConnectedState) = false →
        restCalls (sendMessage exampleConnectedState "hi" false (RestResult.ok "x") "t").2 = 1 ∧
        wsSends (sendMessage exampleConnectedState "hi" false (RestResult.ok "x") "t").2 = 0) ∧
    restCalls (sendMessage exampleConnectedState "hi" false (RestResult.ok "x") "t").2 ≤ 1 ∧
    1 ≤ restCalls (sendMessage exampleConnectedState "hi" false (RestResult.ok "x") "t").2
        + wsSends (sendMessage exampleConnectedState "hi" false (RestResult.ok "x") "t").2 :=
  router_single_fallback exampleConnectedState "hi" false (RestResult.ok "x") "t"
    (by decide) (by decide)

/-- C8: on the fallback path (no live socket handle, persistent preference,
send accepted), the message goes out as a POST to `/api/chat` carrying
message, temperature and max_length; an ok response appends exactly one bot
message after the user entry and clears the typing flag; a non-ok status
(such as 500) yields exactly one error notice, appends no bot message, and
still clears the pending busy/typing flag. -/
theorem rest_fallback_spec (st : AppState) (input now : String) (sendThrows : Bool)
    (r : String) (status : Nat)
    (_hpref : st.settings.useWebSocket = true)
    (hdisc : st.websocket = none)
    (hmsg : jsTrim input ≠ "") (hbusy : st.isTyping = false) :
    (sendMessage st input sendThrows (RestResult.ok r) now).2
        = [Effect.restPost { message := jsTrim input,
                             temperature := st.settings.temperature,
                             max_length := st.settings.maxLength }] ∧
    (sendMessage st input sendThrows (RestResult.ok r) now).1.messages
        = st.messages ++ [{ role := Role.user, content := jsTrim input, timestamp := now },
                          { role := Role.bot, content := r, timestamp := now }] ∧
    (sendMessage st input sendThrows (RestResult.ok r) now).1.isTyping = false ∧
    (sendMessage st input sendThrows (RestResult.httpError status) now).2
        = [Effect.restPost { message := jsTrim input,
                             temperature := st.settings.temperature,
                             max_length := st.settings.maxLength },
           Effect.errorNotice apiErrorMsg] ∧
    (sendMessage st input sendThrows (RestResult.httpError status) now).1.messages
        = st.messages ++ [{ role := Role.user, content := jsTrim input, timestamp := now }] ∧
    (sendMessage st input sendThrows (RestResult.httpError status) now).1.isTyping = false := by
  have hroute : (st.settings.useWebSocket && wsIsOpen st) = false := by
    simp [wsIsOpen, hdisc]
  rw [sendMessage_routes st input sendThrows (RestResult.ok r) now hmsg hbusy,
      sendMessage_routes st input sendThrows (RestResult.httpError status) now hmsg hbusy,
      hroute]
  simp [sendViaRestAPI, addMessage, setTyping]

/-- A disconnected state with persistent preference, for the C8 witness. -/
def fallbackState : AppState :=
  { messages := []
    isTyping := false
    websocket := none
    settings := defaultSettings }

/-- Witness for `rest_fallback_spec` at a concrete disconnected state. -/
theorem rest_fallback_spec_witness :
    (sendMessage fallbackState "hi" false (RestResult.ok "ok") "t").2
        = [Effect.restPost { message := jsTrim "hi",
                             temperature := fallbackState.settings.temperature,
                             max_length := fallbackState.settings.maxLength }] ∧
    (sendMessage fallbackState "hi" false (RestResult.ok "ok") "t").1.messages
        = fallbackState.messages
            ++ [{ role := Role.user, content := jsTrim "hi", timestamp := "t" },
                { role := Role.bot, content := "ok", timestamp := "t" }] ∧
    (sendMessage fallbackState "hi" false (RestResult.ok "ok") "t").1.isTyping = false ∧
    (sendMessage fallbackState "hi" false (RestResult.httpError 500) "t").2
        = [Effect.restPost { message := jsTrim "hi",
                             temperature := fallbackState.settings.temperature,
                             max_length := fallbackState.settings.maxLength },
           Effect.errorNotice apiErrorMsg] ∧
    (sendMessage fallbackState "hi" false (RestResult.httpError 500) "t").1.messages
        = fallbackState.messages
            ++ [{ role := Role.user, content := jsTrim "hi", timestamp := "t" }] ∧
    (sendMessage fallbackState "hi" false (RestResult.httpError 500) "t").1.isTyping = false :=
  rest_fallback_spec fallbackState "hi" "t" false "ok" 500
    (by decide) rfl (by decide) (by decide)

/-- The inbound event of the C9 scenario. -/
def helloInbound : WsInbound :=
  { type := some "message", isTyping := none, response := some "hello", error := none }

/-- C9: while connected with persistent preference and settings temperature
0.7 and maxLength 1000, sending "hi" produces exactly the outbound frame
with message "hi", temperature 0.7 and maxLength 1000; and the subsequent
inbound message event carrying "hello" makes the conversation store gain the
bot entry "hello" as its next (last) element. -/
theorem ws_send_receive_scenario (st : AppState) (i : Nat) (resp : RestResult)
    (now now2 : String)
    (hpref : st.settings.useWebSocket = true)
    (hopen : st.websocket = some { id := i, readyState := WsReadyState.OPEN })
    (htemp : st.settings.temperature = 7 / 10)
    (hlen : st.settings.maxLength = 1000)
    (hbusy : st.isTyping = false) :
    (sendMessage st "hi" false resp now).2
        = [Effect.wsSend { message := "hi", temperature := 7 / 10, maxLength := 1000 }] ∧
    (onMessageEvent (sendMessage st "hi" false resp now).1 (some helloInbound) now2).1.messages
        = (sendMessage st "hi" false resp now).1.messages
            ++ [{ role := Role.bot, content := "hello", timestamp := now2 }] := by
  have htrim : jsTrim "hi" = "hi" := by decide
  have hroute : (st.settings.useWebSocket && wsIsOpen st) = true := by
    simp [wsIsOpen, hopen, hpref]
  rw [sendMessage_routes st "hi" false resp now (by decide) hbusy, hroute, if_pos rfl, htrim]
  constructor
  · simp [sendViaWebSocket, addMessage, htemp, hlen]
  · simp [onMessageEvent, helloInbound, addMessage, setTyping, sendViaWebSocket, jsDisplay]

/-- Witness for `ws_send_receive_scenario` on a concrete connected state. -/
theorem ws_send_receive_scenario_witness :
    (sendMessage exampleConnectedState "hi" false (RestResult.ok "x") "t").2
        = [Effect.wsSend { message := "hi", temperature := 7 / 10, maxLength := 1000 }] ∧
    (onMessageEvent (sendMessage exampleConnectedState "hi" false (RestResult.ok "x") "t").1
        (some helloInbound) "t2").1.messages
      = (sendMessage exampleConnectedState "hi" false (RestResult.ok "x") "t").1.messages
          ++ [{ role := Role.bot, content := "hello", timestamp := "t2" }] :=
  ws_send_receive_scenario exampleConnectedState 0 (RestResult.ok "x") "t" "t2"
    (by decide) rfl (by norm_num [exampleConnectedState, defaultSettings,
      CONFIG_defaultTemperature]) (by decide) (by decide)

end Chatbot
